import Mathlib

/-!
Shallow embedding of the browser-driven search-and-capture engine of
`src/united.js` (class `UnitedFlightSearcher`), together with theorems that
settle the specification claims about it.

Conventions used throughout:
  * JavaScript strings are Lean `String`s; `String.includes` is embedded as
    the executable substring test `jsIncludes` below.
  * JavaScript `undefined` / absent object fields are `Option.none`; the
    engine's dynamic payload values are embedded by the inductive `Payload`,
    which covers exactly the shapes the source code inspects.
  * Wall-clock time is discrete milliseconds (`Nat`); asynchronous waits
    advance the clock by the waited amount, and the captures visible at time
    `t` are given by a monotone arrival function `count : Nat → Nat`.
  * Thrown JavaScript errors are the `JsOutcome.thrown` constructor.
-/

/-! ## String containment (JS `String.includes`) -/

/-- Embeds the test that the character list `pat` is a prefix of `s`. -/
def strStartsWith : List Char → List Char → Bool
  | _, [] => true
  | [], _ :: _ => false
  | c :: cs, d :: ds => c == d && strStartsWith cs ds

/-- Embeds the test that `pat` occurs contiguously somewhere in `s`. -/
def strIncludesL : List Char → List Char → Bool
  | [], pat => strStartsWith [] pat
  | c :: rest, pat => strStartsWith (c :: rest) pat || strIncludesL rest pat

/-- Embedding of JavaScript `s.includes(pat)` on strings. -/
def jsIncludes (s pat : String) : Bool :=
  strIncludesL s.toList pat.toList

theorem strStartsWith_iff (s pat : List Char) :
    strStartsWith s pat = true ↔ ∃ t, s = pat ++ t := by
  induction pat generalizing s with
  | nil => simp [strStartsWith]
  | cons d ds ih =>
    cases s with
    | nil => simp [strStartsWith]
    | cons c cs =>
      simp only [strStartsWith, Bool.and_eq_true, beq_iff_eq, ih cs]
      constructor
      · rintro ⟨rfl, t, rfl⟩
        exact ⟨t, rfl⟩
      · rintro ⟨t, h⟩
        simp only [List.cons_append, List.cons.injEq] at h
        exact ⟨h.1, t, h.2⟩

theorem strIncludesL_iff (s pat : List Char) :
    strIncludesL s pat = true ↔ ∃ l1 l2, s = l1 ++ pat ++ l2 := by
  induction s with
  | nil =>
    simp only [strIncludesL, strStartsWith_iff]
    constructor
    · rintro ⟨t, h⟩
      exact ⟨[], t, by simpa using h⟩
    · rintro ⟨l1, l2, h⟩
      refine ⟨l2, ?_⟩
      have h1 : l1 = [] := by
        cases l1 with
        | nil => rfl
        | cons a l => simp at h
      subst h1
      simpa using h
  | cons c cs ih =>
    simp only [strIncludesL, Bool.or_eq_true, strStartsWith_iff, ih]
    constructor
    · rintro (⟨t, h⟩ | ⟨l1, l2, h⟩)
      · exact ⟨[], t, by simpa using h⟩
      · exact ⟨c :: l1, l2, by simp [h]⟩
    · rintro ⟨l1, l2, h⟩
      cases l1 with
      | nil =>
        exact Or.inl ⟨l2, by simpa using h⟩
      | cons a l =>
        simp only [List.cons_append, List.cons.injEq] at h
        exact Or.inr ⟨l, l2, h.2⟩

/-- Containment is monotone under splitting the pattern: if `s` includes
`p ++ q` then it includes `q`. -/
theorem jsIncludes_of_append (s : String) (p q : List Char)
    (h : strIncludesL s.toList (p ++ q) = true) :
    strIncludesL s.toList q = true := by
  rw [strIncludesL_iff] at h ⊢
  obtain ⟨l1, l2, hs⟩ := h
  exact ⟨l1 ++ p, l2, by simpa [List.append_assoc] using hs⟩

/-! ## Qualifying-response predicate (`isFetchFlightsAPI`, united.js:297-303) -/

/-- Embedding of `isFetchFlightsAPI(url)`: the URL contains
`"/api/flight/FetchFlights"`, or contains `"FetchFlights"`, or contains both
`"united.com"` and `"/api/flight/"`. -/
def isFetchFlightsAPI (url : String) : Bool :=
  jsIncludes url "/api/flight/FetchFlights" ||
  jsIncludes url "FetchFlights" ||
  (jsIncludes url "united.com" && jsIncludes url "/api/flight/")

/-- Modelled from the spec's words (for comparison only): URL contains the
endpoint name, or contains both an `"/api/"` segment and the target domain. -/
def specQualifying (url : String) : Bool :=
  jsIncludes url "FetchFlights" ||
  (jsIncludes url "/api/" && jsIncludes url "united.com")

/-- C2 counterexample: a URL on the target domain with an `/api/` segment that
is not under `/api/flight/` satisfies the spec's predicate but not the code's
predicate, refuting the claimed equivalence. -/
theorem c2_counterexample :
    specQualifying "https://www.united.com/api/booking/upgrade" = true ∧
    isFetchFlightsAPI "https://www.united.com/api/booking/upgrade" = false := by
  constructor <;> decide

/-- C2 (amended): for every URL, `isFetchFlightsAPI` holds iff the URL
contains `"FetchFlights"`, or contains both `"/api/flight/"` and the target
domain `"united.com"`. -/
theorem c2_isFetchFlightsAPI_characterization (url : String) :
    isFetchFlightsAPI url = true ↔
      (jsIncludes url "FetchFlights" = true ∨
        (jsIncludes url "/api/flight/" = true ∧
          jsIncludes url "united.com" = true)) := by
  simp only [isFetchFlightsAPI, Bool.or_eq_true, Bool.and_eq_true]
  constructor
  · rintro ((h | h) | ⟨h1, h2⟩)
    · left
      have : ("/api/flight/".toList ++ "FetchFlights".toList) =
          "/api/flight/FetchFlights".toList := by decide
      exact jsIncludes_of_append url "/api/flight/".toList "FetchFlights".toList
        (by rw [this]; exact h)
    · exact Or.inl h
    · exact Or.inr ⟨h2, h1⟩
  · rintro (h | ⟨h1, h2⟩)
    · exact Or.inl (Or.inr h)
    · exact Or.inr ⟨h2, h1⟩

/-! ## Payload data model (shapes inspected by `extractFlightInfo`) -/

/-- Fare column entry (`trip.ColumnInformation.Columns[i]`). The source field
`Type` is spelled `type` here because `Type` is reserved in Lean. -/
structure Column where
  type : Option String
  Description : Option String
  FareFamily : Option String
  IsFullyRefundable : Option Bool
  DataSourceLabel : Option String
  FareContentDescription : Option String
  MarketingText : Option String
  deriving Repr, DecidableEq

/-- Destination-airport price entry. `Amount` is held as an integer: the
source applies `parseFloat`, whose floating-point details no claim depends
on, so numeric amounts are embedded as integers. -/
structure DestPrice where
  Code : Option String
  Description : Option String
  Amount : Option Int
  Currency : Option String
  FareFamily : Option String
  deriving Repr, DecidableEq

/-- Equipment entry (`trip.SearchFiltersOut.EquipmentList[i]`). -/
structure Equip where
  Code : Option String
  Description : Option String
  deriving Repr, DecidableEq

/-- The `trip.ColumnInformation` object. -/
structure ColumnInfo where
  Columns : Option (List Column)
  deriving Repr, DecidableEq

/-- The `trip.SearchFiltersOut` object. -/
structure SearchFiltersOut where
  AirportsDestinationList : Option (List DestPrice)
  EquipmentList : Option (List Equip)
  PriceMin : Option Int
  PriceMax : Option Int
  PriceMinCurrency : Option String
  DurationMin : Option Int
  DurationMax : Option Int
  StopCountMin : Option Int
  StopCountMax : Option Int
  CarriersMarketing : Option (List String)
  CarriersOperating : Option (List String)
  deriving Repr, DecidableEq

/-- One trip entry of the trip list; every field the source reads. -/
structure Trip where
  TripIndex : Option Int
  Index : Option Int
  Origin : Option String
  Destination : Option String
  OriginDecoded : Option String
  DestinationDecoded : Option String
  DepartDate : Option String
  DepartTime : Option String
  ColumnInformation : Option ColumnInfo
  SearchFiltersOut : Option SearchFiltersOut
  deriving Repr, DecidableEq

/-- A trip list entry as the iteration sees it: `none` embeds a falsy entry
(`null`/`undefined`), skipped by `if (!trip) continue`. -/
abbrev TripEntry := Option Trip

/-- The nested `data.data` object; the source only reads its `Trips` field. -/
structure InnerData where
  Trips : Option (List TripEntry)
  deriving Repr, DecidableEq

/-- Top-level payload object fields the source reads. `dataField` embeds the
source's `data.data`. -/
structure ObjData where
  Trips : Option (List TripEntry)
  dataField : Option InnerData
  SessionId : Option String
  LastCallDateTime : Option String
  Warnings : Option (List String)
  Errors : Option (List String)
  MarketingCarriers : Option (List String)
  OperatingCarriers : Option (List String)
  Status : Option Int
  Version : Option String
  deriving Repr, DecidableEq

/-- The payload object with every field absent. -/
def ObjData.empty : ObjData :=
  ⟨none, none, none, none, none, none, none, none, none, none⟩

/-- A parsed JSON payload, restricted to the shapes the source inspects:
a JS object, a bare array, or a non-object primitive (string/number/null),
which `extractFlightInfo` rejects up front. -/
inductive Payload where
  | obj (o : ObjData)
  | arr (elems : List TripEntry)
  | prim
  deriving Repr, DecidableEq

/-! ## Normalized result model -/

/-- One normalized fare (`flightInfo.fares[i]`). -/
structure FareInfo where
  type : Option String
  description : Option String
  fareFamily : Option String
  isRefundable : Bool
  cabinClass : Option String
  fareContent : Option String
  marketingText : Option String
  deriving Repr, DecidableEq

/-- One normalized per-airport price (`flightInfo.pricing[i]`). -/
structure PriceInfo where
  airport : Option String
  description : Option String
  price : Int
  currency : Option String
  fareFamily : Option String
  deriving Repr, DecidableEq

/-- One normalized aircraft entry (`flightInfo.aircraft[i]`). -/
structure AircraftInfo where
  code : Option String
  description : Option String
  deriving Repr, DecidableEq

/-- Normalized filter summary (`flightInfo.searchFilters`); the engine builds
it only when `trip.SearchFiltersOut` is present, so it sits under `Option`
in `FlightInfo` (with `none` embedding the initial `{}`). -/
structure FilterSummary where
  priceMin : Option Int
  priceMax : Option Int
  priceCurrency : Option String
  durationMin : Option Int
  durationMax : Option Int
  stopMin : Option Int
  stopMax : Option Int
  carriersMarketing : Option (List String)
  carriersOperating : Option (List String)
  deriving Repr, DecidableEq

/-- One normalized flight option. -/
structure FlightInfo where
  tripIndex : Option Int
  origin : Option String
  destination : Option String
  originDecoded : Option String
  destinationDecoded : Option String
  departDate : Option String
  departTime : Option String
  fares : List FareInfo
  pricing : List PriceInfo
  aircraft : List AircraftInfo
  searchFilters : Option FilterSummary
  deriving Repr, DecidableEq

/-- Session-level search metadata (`result.searchInfo`). -/
structure SearchInfo where
  sessionId : Option String
  lastCallDateTime : Option String
  warnings : List String
  errors : List String
  marketingCarriers : Option (List String)
  operatingCarriers : Option (List String)
  status : Option Int
  version : Option String
  deriving Repr, DecidableEq

/-- Metadata attached by `parseInterceptedData`. The two result branches of
the source attach different field sets, hence the `Option` fields. -/
structure ParseMetadata where
  interceptedResponses : Nat
  responseTimestamp : Option String
  responseSize : Option Nat
  apiUrl : Option String
  timestamp : Option String
  parseTimestamp : Option String
  deriving Repr, DecidableEq

/-- The full result shape returned by `extractFlightInfo` and
`parseInterceptedData`. -/
structure ParsedResult where
  flights : List FlightInfo
  error : Option String
  searchInfo : Option SearchInfo
  rawData : Option Payload
  metadata : Option ParseMetadata
  deriving Repr, DecidableEq

/-! ## Result Normalizer (`extractFlightInfo`, united.js:496-622) -/

/-- JS `a || b` on numbers held in `Option Int`: `a` wins iff it is truthy
(present and nonzero), matching `trip.TripIndex || trip.Index`. -/
def jsOrInt (a b : Option Int) : Option Int :=
  match a with
  | some v => if v ≠ 0 then some v else b
  | none => b

/-- JS `x || false` on an optional boolean (`column.IsFullyRefundable`). -/
def jsOrFalse (a : Option Bool) : Bool :=
  match a with
  | some true => true
  | _ => false

/-- Normalizes one fare column, following the source's `Columns.map`. -/
def fareOfColumn (c : Column) : FareInfo :=
  { type := c.type
    description := c.Description
    fareFamily := c.FareFamily
    isRefundable := jsOrFalse c.IsFullyRefundable
    cabinClass := c.DataSourceLabel.map String.trim
    fareContent := c.FareContentDescription
    marketingText := c.MarketingText }

/-- Normalizes one destination-airport price; `parseFloat(dest.Amount) || 0`
becomes `getD 0` under the integer embedding of amounts. -/
def priceOfDest (d : DestPrice) : PriceInfo :=
  { airport := d.Code
    description := d.Description
    price := d.Amount.getD 0
    currency := d.Currency
    fareFamily := d.FareFamily }

/-- Normalizes one equipment entry. -/
def aircraftOfEquip (e : Equip) : AircraftInfo :=
  { code := e.Code
    description := e.Description }

/-- Builds the filter summary from a present `SearchFiltersOut`. -/
def summaryOfFilters (f : SearchFiltersOut) : FilterSummary :=
  { priceMin := f.PriceMin
    priceMax := f.PriceMax
    priceCurrency := f.PriceMinCurrency
    durationMin := f.DurationMin
    durationMax := f.DurationMax
    stopMin := f.StopCountMin
    stopMax := f.StopCountMax
    carriersMarketing := f.CarriersMarketing
    carriersOperating := f.CarriersOperating }

/-- Normalizes one trip entry into a `FlightInfo`, following the body of the
source's `for (const trip of trips)` loop. -/
def flightInfoOfTrip (trip : Trip) : FlightInfo :=
  { tripIndex := jsOrInt trip.TripIndex trip.Index
    origin := trip.Origin
    destination := trip.Destination
    originDecoded := trip.OriginDecoded
    destinationDecoded := trip.DestinationDecoded
    departDate := trip.DepartDate
    departTime := trip.DepartTime
    fares :=
      match trip.ColumnInformation with
      | some ci =>
        match ci.Columns with
        | some cols => cols.map fareOfColumn
        | none => []
      | none => []
    pricing :=
      match trip.SearchFiltersOut with
      | some f =>
        match f.AirportsDestinationList with
        | some ds => ds.map priceOfDest
        | none => []
      | none => []
    aircraft :=
      match trip.SearchFiltersOut with
      | some f =>
        match f.EquipmentList with
        | some es => es.map aircraftOfEquip
        | none => []
      | none => []
    searchFilters := trip.SearchFiltersOut.map summaryOfFilters }

/-- Locates the trip list, following the source's cascade: a top-level
`Trips` array, else a truthy `data.Trips`, else the payload itself when it
is an array, else the empty initial `trips = []`. -/
def locateTrips : Payload → List TripEntry
  | .obj o =>
    match o.Trips with
    | some ts => ts
    | none =>
      match o.dataField with
      | some d =>
        match d.Trips with
        | some ts => ts
        | none => []
      | none => []
  | .arr l => l
  | .prim => []

/-- Session-level `searchInfo` assembled from the payload's object fields;
for a bare array or primitive payload every property read yields
`undefined` (`Warnings || []` and `Errors || []` default to `[]`). -/
def searchInfoOf (data : Payload) : SearchInfo :=
  match data with
  | .obj o =>
    { sessionId := o.SessionId
      lastCallDateTime := o.LastCallDateTime
      warnings := o.Warnings.getD []
      errors := o.Errors.getD []
      marketingCarriers := o.MarketingCarriers
      operatingCarriers := o.OperatingCarriers
      status := o.Status
      version := o.Version }
  | _ =>
    { sessionId := none
      lastCallDateTime := none
      warnings := []
      errors := []
      marketingCarriers := none
      operatingCarriers := none
      status := none
      version := none }

/-- Embedding of `extractFlightInfo(data)`. A non-object payload takes the
`Invalid response data` branch; otherwise the trip list is located, each
truthy trip is normalized in order, and session metadata is attached. The
source's surrounding `try/catch` is unreachable in this total model. -/
def extractFlightInfo (data : Payload) : ParsedResult :=
  match data with
  | .prim =>
    { flights := []
      error := some "Invalid response data"
      searchInfo := none
      rawData := some data
      metadata := none }
  | _ =>
    { flights := (locateTrips data).filterMap (fun t => t.map flightInfoOfTrip)
      error := none
      searchInfo := some (searchInfoOf data)
      rawData := some data
      metadata := none }

/-! ## Captured responses and authoritative-capture selection
(`parseInterceptedData`, united.js:458-491) -/

/-- One `CapturedResponse` as pushed by the response handler. -/
structure CapturedResponse where
  url : String
  timestamp : String
  status : Nat
  headers : List (String × String)
  data : Payload
  size : Nat
  deriving Repr, DecidableEq

/-- One `FailedRequestRecord` as pushed by the `requestfailed` handler. -/
structure FailedRequestRecord where
  url : String
  error : String
  timestamp : String
  deriving Repr, DecidableEq

/-- The engine's session lists (`this.interceptedData`,
`this.failedRequests`). -/
structure EngineState where
  interceptedData : List CapturedResponse
  failedRequests : List FailedRequestRecord
  deriving Repr, DecidableEq

/-- Embedding of the source's `reduce((prev, current) => current.size >
prev.size ? current : prev)`: a left fold from the head with a strict
greater-than comparison. -/
def authoritativeCapture (x : CapturedResponse) (xs : List CapturedResponse) :
    CapturedResponse :=
  xs.foldl (fun prev current => if current.size > prev.size then current else prev) x

/-- Embedding of `parseInterceptedData()`. `now` stands for the wall-clock
strings taken from `new Date().toISOString()`. -/
def parseInterceptedData (now : String) (s : EngineState) : ParsedResult :=
  match s.interceptedData with
  | [] =>
    { flights := []
      error := some "No data intercepted"
      searchInfo := none
      rawData := none
      metadata := some
        { interceptedResponses := 0
          responseTimestamp := none
          responseSize := none
          apiUrl := none
          timestamp := some now
          parseTimestamp := none } }
  | x :: xs =>
    let latest := authoritativeCapture x xs
    { extractFlightInfo latest.data with
      metadata := some
        { interceptedResponses := (x :: xs).length
          responseTimestamp := some latest.timestamp
          responseSize := some latest.size
          apiUrl := some latest.url
          timestamp := none
          parseTimestamp := some now } }

theorem authoritativeCapture_nil (a : CapturedResponse) :
    authoritativeCapture a [] = a := rfl

theorem authoritativeCapture_cons (a x : CapturedResponse)
    (xs : List CapturedResponse) :
    authoritativeCapture a (x :: xs) =
      authoritativeCapture (if x.size > a.size then x else a) xs := rfl

/-- Specification of the strict-greater-than left fold: either the seed is
returned and every element is no larger, or the result is an element that
strictly exceeds the seed, strictly exceeds everything before it, and is at
least as large as everything after it. -/
theorem authoritativeCapture_spec (xs : List CapturedResponse)
    (a : CapturedResponse) :
    (authoritativeCapture a xs = a ∧ ∀ y ∈ xs, y.size ≤ a.size) ∨
    (∃ l1 l2, xs = l1 ++ authoritativeCapture a xs :: l2 ∧
      a.size < (authoritativeCapture a xs).size ∧
      (∀ y ∈ l1, y.size < (authoritativeCapture a xs).size) ∧
      (∀ y ∈ l2, y.size ≤ (authoritativeCapture a xs).size)) := by
  induction xs generalizing a with
  | nil => exact Or.inl ⟨rfl, by simp⟩
  | cons x xs ih =>
    rw [authoritativeCapture_cons]
    by_cases h : x.size > a.size
    · simp only [if_pos h]
      rcases ih x with ⟨hEq, hAll⟩ | ⟨l1, l2, hEq, hLt, hL1, hL2⟩
      · refine Or.inr ⟨[], xs, ?_, ?_, ?_, ?_⟩
        · simp [hEq]
        · rw [hEq]; exact h
        · simp
        · rw [hEq]; exact hAll
      · refine Or.inr ⟨x :: l1, l2, ?_, ?_, ?_, hL2⟩
        · rw [List.cons_append, ← hEq]
        · exact lt_trans h hLt
        · intro y hy
          rcases List.mem_cons.mp hy with rfl | hy
          · exact hLt
          · exact hL1 y hy
    · simp only [if_neg h]
      push_neg at h
      rcases ih a with ⟨hEq, hAll⟩ | ⟨l1, l2, hEq, hLt, hL1, hL2⟩
      · refine Or.inl ⟨hEq, ?_⟩
        intro y hy
        rcases List.mem_cons.mp hy with rfl | hy
        · exact h
        · exact hAll y hy
      · refine Or.inr ⟨x :: l1, l2, ?_, hLt, ?_, hL2⟩
        · rw [List.cons_append, ← hEq]
        · intro y hy
          rcases List.mem_cons.mp hy with rfl | hy
          · exact lt_of_le_of_lt h hLt
          · exact hL1 y hy

/-- Concrete captures for the claimed size scenario [100, 250, 250, 80]. -/
def c1cap0 : CapturedResponse :=
  ⟨"u0", "t0", 200, [], Payload.prim, 100⟩

/-- Second capture, size 250, carrying a recognizable payload. -/
def c1cap1 : CapturedResponse :=
  ⟨"u1", "t1", 200, [], Payload.obj { ObjData.empty with SessionId := some "session-1" }, 250⟩

/-- Third capture, also size 250, with a different payload. -/
def c1cap2 : CapturedResponse :=
  ⟨"u2", "t2", 200, [], Payload.obj { ObjData.empty with SessionId := some "session-2" }, 250⟩

/-- Fourth capture, size 80. -/
def c1cap3 : CapturedResponse :=
  ⟨"u3", "t3", 200, [], Payload.prim, 80⟩

/-- C1: for every non-empty capture list, the capture chosen by
`parseInterceptedData` has maximal byte size, is the first capture achieving
that size (everything before it is strictly smaller, since the fold uses a
strict greater-than comparison left to right), and its timestamp, size, url
and payload populate the normalized result; in particular for sizes
[100, 250, 250, 80] the second capture is selected and its fields appear in
the result's metadata and searchInfo. -/
theorem c1_authoritative_selection (now : String) (s : EngineState)
    (x : CapturedResponse) (xs : List CapturedResponse)
    (h : s.interceptedData = x :: xs) :
    (∀ y ∈ s.interceptedData, y.size ≤ (authoritativeCapture x xs).size) ∧
    (∃ l1 l2, s.interceptedData = l1 ++ authoritativeCapture x xs :: l2 ∧
      ∀ y ∈ l1, y.size < (authoritativeCapture x xs).size) ∧
    (parseInterceptedData now s).metadata = some
      { interceptedResponses := s.interceptedData.length
        responseTimestamp := some (authoritativeCapture x xs).timestamp
        responseSize := some (authoritativeCapture x xs).size
        apiUrl := some (authoritativeCapture x xs).url
        timestamp := none
        parseTimestamp := some now } ∧
    (parseInterceptedData now s).flights =
      (extractFlightInfo (authoritativeCapture x xs).data).flights ∧
    (parseInterceptedData now s).searchInfo =
      (extractFlightInfo (authoritativeCapture x xs).data).searchInfo ∧
    (authoritativeCapture c1cap0 [c1cap1, c1cap2, c1cap3] = c1cap1 ∧
      (parseInterceptedData "p" ⟨[c1cap0, c1cap1, c1cap2, c1cap3], []⟩).metadata =
        some ⟨4, some "t1", some 250, some "u1", none, some "p"⟩ ∧
      (parseInterceptedData "p" ⟨[c1cap0, c1cap1, c1cap2, c1cap3], []⟩).searchInfo =
        some ⟨some "session-1", none, [], [], none, none, none, none⟩) := by
  have hsel := authoritativeCapture_spec xs x
  refine ⟨?_, ?_, ?_, ?_, ?_, ?_, ?_, ?_⟩
  · intro y hy
    rw [h] at hy
    rcases List.mem_cons.mp hy with rfl | hy
    · rcases hsel with ⟨hEq, _⟩ | ⟨_, _, _, hLt, _, _⟩
      · rw [hEq]
      · exact le_of_lt hLt
    · rcases hsel with ⟨hEq, hAll⟩ | ⟨l1, l2, hEq, hLt, hL1, hL2⟩
      · rw [hEq]; exact hAll y hy
      · rw [hEq] at hy
        rcases List.mem_append.mp hy with hy | hy
        · exact le_of_lt (hL1 y hy)
        · rcases List.mem_cons.mp hy with rfl | hy
          · exact le_refl _
          · exact hL2 y hy
  · rcases hsel with ⟨hEq, _⟩ | ⟨l1, l2, hEq, hLt, hL1, _⟩
    · refine ⟨[], xs, ?_, by simp⟩
      simp [h, hEq]
    · refine ⟨x :: l1, l2, ?_, ?_⟩
      · rw [h]
        conv_lhs => rw [hEq]
        rw [List.cons_append]
      · intro y hy
        rcases List.mem_cons.mp hy with rfl | hy
        · exact hLt
        · exact hL1 y hy
  · simp [parseInterceptedData, h, authoritativeCapture]
  · simp [parseInterceptedData, h, authoritativeCapture]
  · simp [parseInterceptedData, h, authoritativeCapture]
  · rfl
  · rfl
  · rfl

/-- C1 witness: the theorem applied to the concrete four-capture state. -/
theorem c1_selection_witness :
    (∀ y ∈ ([c1cap0, c1cap1, c1cap2, c1cap3] : List CapturedResponse),
      y.size ≤ (authoritativeCapture c1cap0 [c1cap1, c1cap2, c1cap3]).size) ∧
    (parseInterceptedData "p" ⟨[c1cap0, c1cap1, c1cap2, c1cap3], []⟩).metadata =
      some ⟨4, some "t1", some 250, some "u1", none, some "p"⟩ :=
  have h := c1_authoritative_selection "p" ⟨[c1cap0, c1cap1, c1cap2, c1cap3], []⟩
    c1cap0 [c1cap1, c1cap2, c1cap3] rfl
  ⟨h.1, h.2.2.2.2.2.2.1⟩

/-! ## Normalizer trip-location tolerance (C9) -/

/-- An all-absent trip entry, used as a concrete witness trip. -/
def c9trip : Trip :=
  ⟨none, none, none, none, none, none, none, none, none, none⟩

/-- C9 counterexample: for the empty trip list, all three payload shapes
yield the empty flight list, so the flight lists are not non-empty for
every trip list L as claimed. -/
theorem c9_counterexample :
    (extractFlightInfo (.obj { ObjData.empty with Trips := some [] })).flights = [] ∧
    (extractFlightInfo (.obj { ObjData.empty with
      dataField := some ⟨some []⟩ })).flights = [] ∧
    (extractFlightInfo (.arr [])).flights = [] := by
  refine ⟨rfl, rfl, rfl⟩

/-- C9 (amended): for every trip list L, the normalizer yields the same
flight list whether L sits in a top-level `Trips` field, a nested
`data.Trips` field, or is the bare payload array; the three locations are
tried in exactly that order (top-level wins over nested; the bare-array
branch applies only when the payload is an array and hence has neither
field); and the common flight list is non-empty whenever L contains at
least one non-null trip. -/
theorem c9_normalizer_tolerance (L : List TripEntry) :
    ((extractFlightInfo (.obj { ObjData.empty with Trips := some L })).flights =
        (extractFlightInfo (.obj { ObjData.empty with
          dataField := some ⟨some L⟩ })).flights ∧
      (extractFlightInfo (.obj { ObjData.empty with Trips := some L })).flights =
        (extractFlightInfo (.arr L)).flights) ∧
    (∀ L2 : List TripEntry,
      locateTrips (.obj { ObjData.empty with
        Trips := some L
        dataField := some ⟨some L2⟩ }) = L ∧
      locateTrips (.obj { ObjData.empty with dataField := some ⟨some L2⟩ }) = L2) ∧
    ((∃ t ∈ L, t.isSome) →
      (extractFlightInfo (.arr L)).flights ≠ []) := by
  refine ⟨⟨rfl, rfl⟩, fun L2 => ⟨rfl, rfl⟩, ?_⟩
  rintro ⟨t, htL, hsome⟩ hnil
  have : ∀ a ∈ L, a.map flightInfoOfTrip = none :=
    List.filterMap_eq_nil_iff.mp hnil
  have ht := this t htL
  cases t with
  | none => simp at hsome
  | some trip => simp [Option.map] at ht

/-- C9 witness: the amended theorem applied at the one-trip list. -/
theorem c9_tolerance_witness :
    (extractFlightInfo (.arr [some c9trip])).flights ≠ [] ∧
    (extractFlightInfo (.obj { ObjData.empty with
        Trips := some [some c9trip] })).flights =
      (extractFlightInfo (.arr [some c9trip])).flights :=
  have h := c9_normalizer_tolerance [some c9trip]
  ⟨h.2.2 ⟨some c9trip, by simp, rfl⟩, h.1.2⟩

/-! ## Interception Pipeline (`setupInterception`, united.js:172-292) -/

/-- An inbound response as the `page.on("response")` handler sees it.
`time` is the `new Date().toISOString()` value taken at interception. -/
structure ResponseEvent where
  url : String
  status : Nat
  body : String
  headers : List (String × String)
  time : String
  deriving Repr, DecidableEq

/-- A network event observed by the interception handlers. -/
inductive NetworkEvent where
  | response (ev : ResponseEvent)
  | requestFailed (url : String) (errorText : Option String) (time : String)
  deriving Repr, DecidableEq

/-- JS `a || b` on an optional string: the empty string is falsy, matching
`failure?.errorText || "Unknown error"`. -/
def jsOrStr (a : Option String) (b : String) : String :=
  match a with
  | some v => if v ≠ "" then v else b
  | none => b

/-- Embedding of the `page.on("response")` handler body: a qualifying URL
with status 200 and a non-empty body whose JSON parses appends exactly one
`CapturedResponse`; every other case leaves the state unchanged (non-200 and
empty bodies return early, parse failures are logged only). `parseJson`
abstracts `JSON.parse`, returning `none` when it would throw. -/
def handleResponse (parseJson : String → Option Payload) (s : EngineState)
    (ev : ResponseEvent) : EngineState :=
  if isFetchFlightsAPI ev.url then
    if ev.status ≠ 200 then s
    else if ev.body.trim = "" then s
    else
      match parseJson ev.body with
      | none => s
      | some d =>
        { s with interceptedData := s.interceptedData ++
            [⟨ev.url, ev.time, ev.status, ev.headers, d, ev.body.length⟩] }
  else s

/-- Embedding of the `page.on("requestfailed")` handler body: failures of
API-path or FetchFlights URLs append one `FailedRequestRecord`. -/
def handleRequestFailed (s : EngineState) (url : String)
    (errorText : Option String) (time : String) : EngineState :=
  if jsIncludes url "/api/" || jsIncludes url "FetchFlights" then
    { s with failedRequests := s.failedRequests ++
        [⟨url, jsOrStr errorText "Unknown error", time⟩] }
  else s

/-- Dispatch of one observed network event to its handler. -/
def handleEvent (parseJson : String → Option Payload) (s : EngineState) :
    NetworkEvent → EngineState
  | .response ev => handleResponse parseJson s ev
  | .requestFailed url errorText time => handleRequestFailed s url errorText time

/-- Processing a whole arrival-ordered sequence of network events. -/
def processEvents (parseJson : String → Option Payload) (s : EngineState)
    (evs : List NetworkEvent) : EngineState :=
  evs.foldl (handleEvent parseJson) s

/-- The capture that one event contributes, if any: present exactly for a
qualifying response with status 200, non-empty body and parsable JSON. -/
def captureOfEvent (parseJson : String → Option Payload) :
    NetworkEvent → Option CapturedResponse
  | .response ev =>
    if isFetchFlightsAPI ev.url then
      if ev.status ≠ 200 then none
      else if ev.body.trim = "" then none
      else (parseJson ev.body).map
        (fun d => ⟨ev.url, ev.time, ev.status, ev.headers, d, ev.body.length⟩)
    else none
  | .requestFailed _ _ _ => none

theorem handleEvent_interceptedData (parseJson : String → Option Payload)
    (s : EngineState) (e : NetworkEvent) :
    (handleEvent parseJson s e).interceptedData =
      s.interceptedData ++ (captureOfEvent parseJson e).toList := by
  cases e with
  | response ev =>
    simp only [handleEvent, handleResponse, captureOfEvent]
    by_cases h1 : isFetchFlightsAPI ev.url
    · simp only [if_pos h1]
      by_cases h2 : ev.status ≠ 200
      · simp [if_pos h2]
      · simp only [if_neg h2]
        by_cases h3 : ev.body.trim = ""
        · simp [if_pos h3]
        · simp only [if_neg h3]
          cases parseJson ev.body <;> simp
    · simp [if_neg h1]
  | requestFailed url errorText time =>
    simp only [handleEvent, handleRequestFailed, captureOfEvent]
    split <;> simp

/-- C7: over any arrival-ordered event sequence, the capture list only grows
at its end: the final list is the initial list followed by exactly one
`CapturedResponse` per qualifying parsed response, in arrival order; no
handler removes or reorders elements. -/
theorem c7_capture_list_append_only (parseJson : String → Option Payload)
    (s : EngineState) (evs : List NetworkEvent) :
    (processEvents parseJson s evs).interceptedData =
      s.interceptedData ++ evs.filterMap (captureOfEvent parseJson) := by
  induction evs generalizing s with
  | nil => simp [processEvents]
  | cons e evs ih =>
    have hstep := handleEvent_interceptedData parseJson s e
    calc (processEvents parseJson s (e :: evs)).interceptedData
        = (processEvents parseJson (handleEvent parseJson s e) evs).interceptedData := rfl
      _ = (handleEvent parseJson s e).interceptedData ++
            evs.filterMap (captureOfEvent parseJson) := ih _
      _ = s.interceptedData ++ (e :: evs).filterMap (captureOfEvent parseJson) := by
          rw [hstep, List.filterMap_cons, List.append_assoc]
          cases captureOfEvent parseJson e <;> simp

/-! ## Session reset (`clearData`, united.js:862-864, and the fresh failure
list installed by `setupInterception`, united.js:172-174, 290-291) -/

/-- Embedding of `clearData()`: only `this.interceptedData` is reassigned. -/
def clearData (s : EngineState) : EngineState :=
  { s with interceptedData := [] }

/-- Embedding of the state effect of installing `setupInterception`: the
handlers capture a fresh empty `failedRequests` array and the method stores
it on the instance (`this.failedRequests = failedRequests`). -/
def setupInterceptionInstall (s : EngineState) : EngineState :=
  { s with failedRequests := [] }

/-- Concrete engine state with one capture and one recorded failure. -/
def c6state : EngineState :=
  ⟨[⟨"https://www.united.com/api/flight/FetchFlights?x=1", "t4", 200, [], Payload.prim, 10⟩],
    [⟨"https://www.united.com/api/flight/FetchFlights?x=2", "net::ERR_HTTP2_PROTOCOL_ERROR", "t5"⟩]⟩

/-- C6 counterexample: after `clearData` runs on a state with a recorded
failure, the failure list still has length one, not zero. -/
theorem c6_counterexample :
    (clearData c6state).interceptedData.length = 0 ∧
    (clearData c6state).failedRequests.length ≠ 0 := by
  exact ⟨rfl, by decide⟩

/-- C6 (amended): `clearData` empties the capture list and leaves the
failure list untouched; the failure list becomes empty only when
`setupInterception` installs fresh handlers for the next search. -/
theorem c6_clearData_behavior (s : EngineState) :
    (clearData s).interceptedData = [] ∧
    (clearData s).failedRequests = s.failedRequests ∧
    (setupInterceptionInstall (clearData s)).interceptedData = [] ∧
    (setupInterceptionInstall (clearData s)).failedRequests = [] :=
  ⟨rfl, rfl, rfl, rfl⟩

/-! ## Completion Detector (`waitForSearchResults`, united.js:308-356)

The cooperative polling loop is embedded over discrete time: `count t` is
the number of captures visible at `t` milliseconds after the loop starts,
and each `waitFor` advances the clock by the waited amount. The
`checkPageStateAndRetrigger` call every 10th tick only touches the page, so
it is embedded as taking no loop-visible time. `fuel` bounds the recursion;
every iteration advances time by at least 1000 ms, so
`maxWait / 1000 + 1` units of fuel are always enough. -/

/-- Result of one `waitForSearchResults` run. -/
inductive WaitResult where
  /-- The capture count stabilized: no growth for a 3 s window. `t` is the
  loop-clock time at which the function returned. -/
  | completed (t : Nat)
  /-- The time budget elapsed with at least one capture; the function
  returns normally with partial data. -/
  | timedOutOk (t : Nat)
  /-- The time budget elapsed with zero captures; the function logs the
  accumulated failed-request records and throws. -/
  | emptyCapture (failed : List FailedRequestRecord) (t : Nat)
  /-- Fuel exhausted (unreachable with the fuel used by the wrapper). -/
  | fuelOut
  deriving Repr, DecidableEq

/-- The code after the `while` loop: log any failed requests, then throw
iff no data was ever intercepted. -/
def waitExit (count : Nat → Nat) (failed : List FailedRequestRecord)
    (t : Nat) : WaitResult :=
  if count t = 0 then .emptyCapture failed t else .timedOutOk t

/-- One-loop-per-call embedding of the polling `while` loop. State:
current time `t`, `lastCount` (`lastDataCount`), and the tick counter
`checkCount` (kept for fidelity; the retrigger check it gates does not
change the loop state). -/
def waitPoll (count : Nat → Nat) (failed : List FailedRequestRecord)
    (maxWait : Nat) : Nat → Nat → Nat → Nat → WaitResult
  | 0, t, _, _ =>
    if t < maxWait then .fuelOut else waitExit count failed t
  | fuel + 1, t, lastCount, checkCount =>
    if t < maxWait then
      if count t > lastCount then
        if count (t + 3000) = count t then .completed (t + 3000)
        else waitPoll count failed maxWait fuel (t + 3000 + 1000) (count t)
          (checkCount + 1)
      else waitPoll count failed maxWait fuel (t + 1000) lastCount (checkCount + 1)
    else waitExit count failed t

/-- Embedding of `waitForSearchResults(page, maxWait = 60000)`. -/
def waitForSearchResults (count : Nat → Nat)
    (failed : List FailedRequestRecord) (maxWait : Nat) : WaitResult :=
  waitPoll count failed maxWait (maxWait / 1000 + 1) 0 0 0

theorem waitPoll_emptyCapture (count : Nat → Nat)
    (failed : List FailedRequestRecord) (maxWait : Nat) :
    ∀ fuel t lastCount checkCount fs u,
      waitPoll count failed maxWait fuel t lastCount checkCount =
        .emptyCapture fs u →
      fs = failed ∧ count u = 0 ∧ maxWait ≤ u := by
  intro fuel
  induction fuel with
  | zero =>
    intro t lastCount checkCount fs u h
    simp only [waitPoll] at h
    split at h
    · exact absurd h (by simp)
    · next hge =>
      simp only [waitExit] at h
      split at h
      · next hc =>
        cases h
        exact ⟨rfl, hc, Nat.le_of_not_lt hge⟩
      · exact absurd h (by simp)
  | succ fuel ih =>
    intro t lastCount checkCount fs u h
    simp only [waitPoll] at h
    split at h
    · split at h
      · split at h
        · exact absurd h (by simp)
        · exact ih _ _ _ _ _ h
      · exact ih _ _ _ _ _ h
    · next hge =>
      simp only [waitExit] at h
      split at h
      · next hc =>
        cases h
        exact ⟨rfl, hc, Nat.le_of_not_lt hge⟩
      · exact absurd h (by simp)

theorem waitPoll_timedOutOk (count : Nat → Nat)
    (failed : List FailedRequestRecord) (maxWait : Nat) :
    ∀ fuel t lastCount checkCount u,
      waitPoll count failed maxWait fuel t lastCount checkCount =
        .timedOutOk u →
      0 < count u ∧ maxWait ≤ u := by
  intro fuel
  induction fuel with
  | zero =>
    intro t lastCount checkCount u h
    simp only [waitPoll] at h
    split at h
    · exact absurd h (by simp)
    · next hge =>
      simp only [waitExit] at h
      split at h
      · exact absurd h (by simp)
      · next hc =>
        cases h
        exact ⟨Nat.pos_of_ne_zero hc, Nat.le_of_not_lt hge⟩
  | succ fuel ih =>
    intro t lastCount checkCount u h
    simp only [waitPoll] at h
    split at h
    · split at h
      · split at h
        · exact absurd h (by simp)
        · exact ih _ _ _ _ h
      · exact ih _ _ _ _ h
    · next hge =>
      simp only [waitExit] at h
      split at h
      · exact absurd h (by simp)
      · next hc =>
        cases h
        exact ⟨Nat.pos_of_ne_zero hc, Nat.le_of_not_lt hge⟩

/-- C3: whenever the wait ends by exhausting the `maxWait` budget, the run
throws exactly when the capture count at exit is zero, and the thrown
error carries the accumulated failed-request records (they are emitted as
diagnostics at the throw site); with at least one capture at exit the run
returns normally, even if growth never stabilized. -/
theorem c3_timeout_outcomes (count : Nat → Nat)
    (failed : List FailedRequestRecord) (maxWait : Nat) :
    (∀ fs u, waitForSearchResults count failed maxWait = .emptyCapture fs u →
      fs = failed ∧ count u = 0 ∧ maxWait ≤ u) ∧
    (∀ u, waitForSearchResults count failed maxWait = .timedOutOk u →
      0 < count u ∧ maxWait ≤ u) :=
  ⟨fun fs u h => waitPoll_emptyCapture count failed maxWait _ 0 0 0 fs u h,
    fun u h => waitPoll_timedOutOk count failed maxWait _ 0 0 0 u h⟩

/-- A failure record used in concrete completion-detector runs. -/
def c3failure : FailedRequestRecord :=
  ⟨"https://www.united.com/api/flight/FetchFlights", "net::ERR_HTTP2_PROTOCOL_ERROR", "t6"⟩

/-- An arrival function that grows forever (one new capture per second),
so the count never stabilizes. -/
def c3growth : Nat → Nat := fun t => t / 1000 + 1

/-- C3 witness: with no captures ever and a 5-second budget, the run throws
an empty-capture error carrying the failure records at t = 5000; with
ever-growing captures it returns normally at budget exhaustion. -/
theorem c3_timeout_witness :
    (waitForSearchResults (fun _ => 0) [c3failure] 5000 =
        .emptyCapture [c3failure] 5000 ∧
      [c3failure] = [c3failure] ∧ (0 : Nat) = 0 ∧ 5000 ≤ 5000) ∧
    (waitForSearchResults c3growth [c3failure] 5000 = .timedOutOk 8000 ∧
      0 < c3growth 8000 ∧ 5000 ≤ 8000) := by
  refine ⟨⟨?_, ?_⟩, ?_⟩
  · rfl
  · exact (c3_timeout_outcomes (fun _ => 0) [c3failure] 5000).1 [c3failure] 5000 rfl
  · refine ⟨?_, ?_⟩
    · rfl
    · exact (c3_timeout_outcomes c3growth [c3failure] 5000).2 8000 rfl

/-- Captures arriving at t = 1 s and t = 2 s and never afterwards: the
count visible at time `t`. -/
def c5arrivals : Nat → Nat := fun t =>
  (if 1000 ≤ t then 1 else 0) + (if 2000 ≤ t then 1 else 0)

/-- C5 counterexample: with arrivals at t = 1 s and t = 2 s, the detector
declares completion at t = 8000 ms, not approximately t = 5000 ms (it is
not even within 2 s of the claimed time). The tick at t = 1 s sees the
first capture and waits the 3 s window to t = 4 s, where the count has
grown again; the next tick at t = 5 s sees the second capture, and the
3 s window ending at t = 8 s is quiet. -/
theorem c5_counterexample :
    waitForSearchResults c5arrivals [] 60000 = .completed 8000 ∧
    (∀ t, waitForSearchResults c5arrivals [] 60000 = .completed t →
      5000 + 2000 < t) := by
  refine ⟨rfl, ?_⟩
  intro t h
  rw [show waitForSearchResults c5arrivals [] 60000 = .completed 8000 from rfl] at h
  cases h
  omega

/-- C5 (amended): with captures arriving at t = 1 s and t = 2 s and no
further arrivals, the detector declares completion at exactly t = 8 s —
the second arrival is first observed at the t = 5 s tick and the 3 s
stabilization window then passes quietly — and at no other time. -/
theorem c5_completion_timing :
    waitForSearchResults c5arrivals [] 60000 = .completed 8000 ∧
    (∀ t, waitForSearchResults c5arrivals [] 60000 = .completed t →
      t = 8000) := by
  refine ⟨rfl, ?_⟩
  intro t h
  rw [show waitForSearchResults c5arrivals [] 60000 = .completed 8000 from rfl] at h
  cases h
  rfl

/-! ## Navigation Retrier (`navigateWithRetry`, united.js:135-167) -/

/-- Outcome of one navigation attempt: either `page.goto`/`page.title`
threw (`err`, carrying `error.message`), or the page loaded and its title
was read (`page`; the empty string embeds a falsy title). -/
inductive AttemptOutcome where
  | err (msg : String)
  | page (title : String)
  deriving Repr, DecidableEq

/-- The source's success test `title && !title.includes("Error")`. -/
def titleOk (title : String) : Bool :=
  !(title = "") && !(jsIncludes title "Error")

/-- Result of a `navigateWithRetry` run: `ok` is a normal return (either an
explicit `return` on success or falling off the end of the `for` loop), and
`navError` is the thrown `Failed to navigate after ... attempts` error.
`backoffs` lists the inter-attempt waits performed, in order. -/
inductive NavResult where
  | ok (backoffs : List Nat)
  | navError (msg : String) (backoffs : List Nat)
  deriving Repr, DecidableEq

/-- The `for (attempt = 1; attempt <= maxRetries; attempt++)` loop. An
attempt that loads with a bad title falls through with neither a throw nor
a backoff wait (the `catch` block is not entered); an attempt that throws
either raises at `attempt === maxRetries` or waits `2000 * attempt` and
retries; loop exhaustion returns normally. -/
def navLoop (att : Nat → AttemptOutcome) (maxRetries : Nat) :
    Nat → Nat → List Nat → NavResult
  | 0, _, backoffs => .ok backoffs
  | remaining + 1, attempt, backoffs =>
    match att attempt with
    | .page title =>
      if titleOk title then .ok backoffs
      else navLoop att maxRetries remaining (attempt + 1) backoffs
    | .err msg =>
      if attempt = maxRetries then .navError msg backoffs
      else navLoop att maxRetries remaining (attempt + 1) (backoffs ++ [2000 * attempt])

/-- Embedding of `navigateWithRetry(page, url, maxRetries = 3)`. -/
def navigateWithRetry (att : Nat → AttemptOutcome) (maxRetries : Nat) :
    NavResult :=
  navLoop att maxRetries maxRetries 1 []

/-- C4 counterexample: a navigator whose every attempt loads a page titled
"Error" fails all three attempts by the source's own title test, yet
`navigateWithRetry` returns normally with no `NavigationError` and no
backoff waits, because the soft-failure path never enters the `catch`
block that throws and backs off. -/
theorem c4_counterexample :
    titleOk "Error" = false ∧
    navigateWithRetry (fun _ => .page "Error") 3 = .ok [] ∧
    (∀ msg backoffs,
      navigateWithRetry (fun _ => .page "Error") 3 ≠ .navError msg backoffs) := by
  refine ⟨rfl, rfl, ?_⟩
  intro msg backoffs h
  rw [show navigateWithRetry (fun _ => .page "Error") 3 = .ok [] from rfl] at h
  cases h

theorem navLoop_all_err (att : Nat → AttemptOutcome) (msgs : Nat → String)
    (maxRetries : Nat) :
    ∀ remaining attempt backoffs,
      1 ≤ remaining →
      attempt + remaining = maxRetries + 1 →
      (∀ i, attempt ≤ i → i ≤ maxRetries → att i = .err (msgs i)) →
      navLoop att maxRetries remaining attempt backoffs =
        .navError (msgs maxRetries)
          (backoffs ++ (List.range' attempt (remaining - 1)).map (fun a => 2000 * a)) := by
  intro remaining
  induction remaining with
  | zero => intro attempt backoffs h1; omega
  | succ r ih =>
    intro attempt backoffs _ hsum hatt
    have hle : attempt ≤ maxRetries := by omega
    have herr : att attempt = .err (msgs attempt) := hatt attempt (le_refl _) hle
    rw [navLoop, herr]
    dsimp only
    by_cases hlast : attempt = maxRetries
    · have hr : r = 0 := by omega
      subst hlast hr
      simp
    · rw [if_neg hlast]
      have hr1 : 1 ≤ r := by omega
      have := ih (attempt + 1) (backoffs ++ [2000 * attempt]) hr1 (by omega)
        (fun i hi1 hi2 => hatt i (by omega) hi2)
      rw [this]
      have hrange : List.range' attempt r = attempt :: List.range' (attempt + 1) (r - 1) := by
        conv_lhs => rw [show r = (r - 1) + 1 by omega]
        rw [List.range'_succ]
      rw [show r + 1 - 1 = r from rfl, hrange]
      simp

/-- C4 (amended): if every attempt throws a (hard) navigation error, then
after `maxRetries` attempts `navigateWithRetry` raises the navigation error
carrying the last attempt's failure message, having waited `2000 * attempt`
ms between consecutive failed attempts; whereas a soft failure (page loads
with an error-indicating title) is retried without backoff and, on the last
attempt, ends the loop without raising (see the counterexample). -/
theorem c4_retry_exhaustion (att : Nat → AttemptOutcome) (msgs : Nat → String)
    (maxRetries : Nat) (hpos : 1 ≤ maxRetries)
    (hatt : ∀ i, 1 ≤ i → i ≤ maxRetries → att i = .err (msgs i)) :
    navigateWithRetry att maxRetries =
      .navError (msgs maxRetries)
        ((List.range' 1 (maxRetries - 1)).map (fun a => 2000 * a)) := by
  have := navLoop_all_err att msgs maxRetries maxRetries 1 [] hpos (by omega) hatt
  simpa [navigateWithRetry] using this

/-- Distinct per-attempt failure messages for the C4 witness. -/
def c4msgs : Nat → String := fun i =>
  if i = 3 then "net::ERR_HTTP2_PROTOCOL_ERROR (third)" else "earlier failure"

/-- C4 witness: three hard-failing attempts raise the error with the third
attempt's message after backoffs of 2000 ms and 4000 ms. -/
theorem c4_retry_witness :
    navigateWithRetry (fun i => .err (c4msgs i)) 3 =
      .navError "net::ERR_HTTP2_PROTOCOL_ERROR (third)" [2000, 4000] := by
  have h := c4_retry_exhaustion (fun i => .err (c4msgs i)) c4msgs 3
    (by norm_num) (fun i h1 h2 => rfl)
  rw [h]
  rfl

/-! ## Session Controller (`searchByURL`, united.js:28-67, and
`searchByFormInteraction`, united.js:644-686) -/

/-- A JavaScript computation result: normal return or thrown error. -/
inductive JsOutcome (α : Type) where
  | ret (a : α)
  | thrown (msg : String)
  deriving Repr, DecidableEq

/-- Resource-visible run state: how many browser sessions are open, and how
many responses have been captured this session. -/
structure RunState where
  openBrowsers : Nat
  captures : Nat
  deriving Repr, DecidableEq

/-- Effect of `puppeteer.launch(...)` succeeding: one more open browser. -/
def launchBrowser (s : RunState) : RunState :=
  { s with openBrowsers := s.openBrowsers + 1 }

/-- Effect of `browser.close()`: one fewer open browser. -/
def closeBrowser (s : RunState) : RunState :=
  { s with openBrowsers := s.openBrowsers - 1 }

/-- JavaScript `try { body } finally { fin }` where the finalizer is a pure
state effect that cannot throw (as `browser.close()` is used here): the
finalizer runs whether the body returned or threw, and the body's outcome
then propagates. -/
def jsTryFinally {α : Type} (body : RunState → JsOutcome α × RunState)
    (fin : RunState → RunState) (s : RunState) : JsOutcome α × RunState :=
  let r := body s
  (r.1, fin r.2)

/-- Embedding of `searchByURL`: launch the browser (which itself may throw,
in which case nothing was acquired), then run the delegated stages —
`newPage`, `setupAntiDetection`, `setRequestInterception`,
`setupInterception`, `navigateWithRetry`, `waitForSearchResults`,
`parseInterceptedData` — inside `try`, with `browser.close()` in
`finally`. The stages are abstracted as one state transformer `body` that
may capture responses and may throw. -/
def searchByURL (launchResult : JsOutcome Unit)
    (body : RunState → JsOutcome ParsedResult × RunState) (s : RunState) :
    JsOutcome ParsedResult × RunState :=
  match launchResult with
  | .thrown m => (.thrown m, s)
  | .ret _ => jsTryFinally body closeBrowser (launchBrowser s)

/-- The identifiers in scope at united.js:655 where `proxies` is read while
building the launch arguments: module bindings of united.js plus the
standard globals the file uses. `proxies` is declared nowhere. -/
def moduleScope : List String :=
  ["fs", "path", "puppeteer", "UnitedFlightSearcher", "testWithURL",
    "extractParamsFromURL", "displayResults", "require", "module",
    "console", "Math", "JSON", "Date", "URL", "process", "setTimeout",
    "Promise", "parseInt", "parseFloat"]

/-- Embedding of `searchByFormInteraction`: the launch-argument template
string reads the free identifier `proxies`; if it were in scope the method
would proceed like `searchByURL` (launch, staged body, guaranteed close),
but an unresolvable identifier throws a `ReferenceError` before
`puppeteer.launch` is invoked. -/
def searchByFormInteraction
    (body : RunState → JsOutcome ParsedResult × RunState) (s : RunState) :
    JsOutcome ParsedResult × RunState :=
  if moduleScope.contains "proxies" then
    jsTryFinally body closeBrowser (launchBrowser s)
  else
    (.thrown "ReferenceError: proxies is not defined", s)

/-- C8: for both public search operations, the number of open browser
sessions is unchanged on every exit path — launch failure, a body that
returns, or a body that throws — provided the delegated stages themselves
neither launch nor close browsers; and the body's outcome (result or
thrown error) propagates to the caller after the close. -/
theorem c8_browser_released_on_every_path (launchResult : JsOutcome Unit)
    (body : RunState → JsOutcome ParsedResult × RunState) (s : RunState)
    (hbody : ∀ st, ((body st).2).openBrowsers = st.openBrowsers) :
    ((searchByURL launchResult body s).2.openBrowsers = s.openBrowsers ∧
      (∀ m, launchResult = .thrown m → searchByURL launchResult body s = (.thrown m, s)) ∧
      (launchResult = .ret () →
        (searchByURL launchResult body s).1 = (body (launchBrowser s)).1)) ∧
    ((searchByFormInteraction body s).2.openBrowsers = s.openBrowsers) := by
  refine ⟨⟨?_, ?_, ?_⟩, ?_⟩
  · cases launchResult with
    | thrown m => rfl
    | ret a =>
      cases a
      simp only [searchByURL, jsTryFinally, closeBrowser]
      rw [hbody (launchBrowser s)]
      rfl
  · intro m h
    subst h
    rfl
  · intro h
    subst h
    rfl
  · simp only [searchByFormInteraction]
    rw [if_neg (by decide)]

/-- C8 witness: the theorem applied to a concrete failing body (navigation
error propagating out of the stages) from a state with no open browser. -/
theorem c8_release_witness :
    (searchByURL (.ret ()) (fun st => (.thrown "Failed to navigate", st))
      ⟨0, 0⟩).2.openBrowsers = 0 ∧
    (searchByFormInteraction (fun st => (.thrown "Failed to navigate", st))
      ⟨0, 0⟩).2.openBrowsers = 0 :=
  have h := c8_browser_released_on_every_path (.ret ())
    (fun st => (.thrown "Failed to navigate", st)) ⟨0, 0⟩ (fun _ => rfl)
  ⟨h.1.1, h.2⟩

/-- C10: `searchByFormInteraction` throws the `proxies` ReferenceError on
every input before any browser is launched or any response captured: the
run state is returned unchanged and the outcome is never a normal return
of a `ParsedResult`. -/
theorem c10_form_path_reference_error
    (body : RunState → JsOutcome ParsedResult × RunState) (s : RunState) :
    searchByFormInteraction body s =
      (.thrown "ReferenceError: proxies is not defined", s) ∧
    (∀ r : ParsedResult, (searchByFormInteraction body s).1 ≠ .ret r) := by
  constructor
  · simp only [searchByFormInteraction]
    rw [if_neg (by decide)]
  · intro r h
    simp only [searchByFormInteraction] at h
    rw [if_neg (by decide)] at h
    cases h
